import Mathlib

/-!
Shallow embedding of `pyblish_qml/host.py` (host-integration and lifecycle
layer of pyblish-qml) and proofs of the spec claims about it.

The process-wide dictionary `_state`, the `settings` module and the pyblish
callback registry are modelled together as a `World` record; Python
exceptions are modelled with `Except PyErr`; the host environment (which
modules are importable, which paths are files, which processes are alive)
is an `Env` record of oracles.  Observable side effects (stdout writes,
callback registration, process kills, ...) are recorded in an event log.
-/

set_option autoImplicit false

namespace PyblishQml

/-- Python exceptions that the embedded code can raise or catch. -/
inductive PyErr where
  | typeError (msg : String)
  | keyError (key : String)
  | ioError
  | osError
  | assertionError (msg : String)
  | importError
  | runtimeError
  | attributeError
  deriving DecidableEq, Repr

/-- Python values stored in instance data dictionaries. -/
inductive Val where
  | vnone
  | vbool (b : Bool)
  | vstr (s : String)
  | vint (n : Int)
  deriving DecidableEq, Repr

/-- A Python dictionary with string keys, as an insertion-ordered
association list (unique keys when built by `dictSet`). -/
abbrev Dict := List (String × Val)

/-- Python dictionary lookup `d.get(k)`: first entry with the key. -/
def dictGet (d : Dict) (k : String) : Option Val :=
  match d with
  | [] => Option.none
  | (k', v) :: rest => if k' = k then some v else dictGet rest k

/-- Python dictionary assignment `d[k] = v`: replace the value in place
when the key is present, append otherwise. -/
def dictSet (d : Dict) (k : String) (v : Val) : Dict :=
  match d with
  | [] => [(k, v)]
  | (k', v') :: rest => if k' = k then (k', v) :: rest else (k', v') :: dictSet rest k v

/-- A pyblish `Instance`: named item with a `data` dictionary. -/
structure Instance where
  name : String
  data : Dict
  deriving DecidableEq, Repr

/-- A pyblish `Plugin`: named, with an `active` attribute and an order. -/
structure Plugin where
  name : String
  active : Val
  order : Int
  deriving DecidableEq, Repr

/-- `host._toggle_instance`: `instance.data["publish"] = new_value`. -/
def _toggle_instance (inst : Instance) (new_value : Val) (old_value : Val) : Instance :=
  { inst with data := dictSet inst.data "publish" new_value }

/-- `host._toggle_plugin`: `plugin.active = new_value`. -/
def _toggle_plugin (plugin : Plugin) (new_value : Val) (old_value : Val) : Plugin :=
  { plugin with active := new_value }

/-- Result of `inspect.getargspec` on a wrapper candidate. -/
structure ArgSpec where
  args : List String
  varargs : Option String
  keywords : Option String
  deriving DecidableEq, Repr

/-- Identity of a dispatch-wrapper callable: one of the four closures built
by the host installers, or an arbitrary user-supplied function. -/
inductive WrapperTag where
  | mayaThreaded
  | houdiniThreaded
  | nukeThreaded
  | hieroThreaded
  | user (id : Nat)
  deriving DecidableEq, Repr

/-- A dispatch-wrapper callable: its identity and its argspec. -/
structure Wrapper where
  tag : WrapperTag
  argspec : ArgSpec
  deriving DecidableEq, Repr

/-- The argspec of every `threaded_wrapper(func, *args, **kwargs)` closure
defined by the host installers. -/
def thread_argspec : ArgSpec :=
  { args := ["func"], varargs := some "args", keywords := some "kwargs" }

/-- An identifier standing for an arbitrary Python callable. -/
abbrev Func := Nat

/-- The host "execute in main thread" modules the installers forward to. -/
inductive HostApi where
  | mayaUtils
  | hdefereval
  | nuke
  | hieroCore
  deriving DecidableEq, Repr

/-- How a wrapper forwards its arguments to the host API. -/
inductive Forwarding where
  /-- `api(func, *args, **kwargs)`: arguments re-spread positionally. -/
  | unpacked
  /-- `api(func, args, kwargs)`: args tuple and kwargs dict passed as two
  positional arguments. -/
  | packed
  deriving DecidableEq, Repr

/-- A call made into a host application's API. -/
structure HostCall where
  api : HostApi
  method : String
  func : Func
  args : List Val
  kwargs : Dict
  forwarding : Forwarding
  deriving DecidableEq, Repr

/-- Behaviour of a dispatch wrapper when the server invokes it: the host
call it performs.  The four installer-built closures each forward to their
host's `executeInMainThreadWithResult`; a user wrapper's behaviour is
unknown to this module. -/
def runWrapper : WrapperTag → Func → List Val → Dict → Option HostCall
  | WrapperTag.mayaThreaded, f, args, kwargs =>
      some { api := HostApi.mayaUtils, method := "executeInMainThreadWithResult",
             func := f, args := args, kwargs := kwargs, forwarding := Forwarding.unpacked }
  | WrapperTag.houdiniThreaded, f, args, kwargs =>
      some { api := HostApi.hdefereval, method := "executeInMainThreadWithResult",
             func := f, args := args, kwargs := kwargs, forwarding := Forwarding.unpacked }
  | WrapperTag.nukeThreaded, f, args, kwargs =>
      some { api := HostApi.nuke, method := "executeInMainThreadWithResult",
             func := f, args := args, kwargs := kwargs, forwarding := Forwarding.packed }
  | WrapperTag.hieroThreaded, f, args, kwargs =>
      some { api := HostApi.hieroCore, method := "executeInMainThreadWithResult",
             func := f, args := args, kwargs := kwargs, forwarding := Forwarding.packed }
  | WrapperTag.user _, _, _, _ => Option.none

/-- A handle to the spawned QML server process. -/
structure Server where
  id : Nat
  deriving DecidableEq, Repr

/-- Callbacks registered with `pyblish.api.register_callback`. -/
inductive Cb where
  | toggleInstance
  | togglePlugin
  | onShown
  deriving DecidableEq, Repr

/-- Observable side effects, recorded in order of occurrence. -/
inductive Event where
  | registerCallback (signal : String)
  | deregisterCallback (signal : String)
  | connectApplicationQuit
  | stdout (line : String)
  | setInstalled
  | splashShown
  | splashClosed
  | tracebackPrinted
  | serverCreated (id : Nat)
  | proxyShow (id : Nat)
  | kill (id : Nat)
  deriving DecidableEq, Repr

/-- The process-wide mutable state: the `_state` dictionary of `host.py`
(`dispatchWrapper`, `currentServer`, `installed`, `pythonExecutable`,
`pyqt5` keys, each `Option` / flag for key absent), the `settings` module
fields the installers write, the pyblish callback registry, and the event
log. -/
structure World where
  dispatchWrapper : Option Wrapper
  currentServer : Option Server
  installed : Bool
  pythonExecutable : Option String
  pyqt5 : Option String
  contextLabel : String
  windowTitle : String
  callbacks : List (String × Cb)
  events : List Event
  deriving DecidableEq, Repr

/-- The host environment: which modules import, Nuke's command line, Qt
availability, filesystem and process oracles, and outcomes of IPC calls. -/
structure Env where
  hasMayaUtils : Bool
  hasHdefereval : Bool
  hasNuke : Bool
  hasHiero : Bool
  hasBpy : Bool
  nukeRawArgs : List String
  hasQtWidgets : Bool
  hasQApplication : Bool
  proxyShowOk : Nat → Bool
  serverCreateErr : Option PyErr
  splashCloseRuntimeError : Bool
  isFile : String → Bool
  processAlive : Nat → Bool
  newServerId : Nat

/-- `host.register_dispatch_wrapper`: raise `TypeError` unless the argspec
is exactly one positional argument plus `*varargs` plus `**keywords`;
otherwise store the wrapper under the `dispatchWrapper` key. -/
def register_dispatch_wrapper (wrapper : Wrapper) (w : World) : Except PyErr World :=
  if wrapper.argspec.args.length ≠ 1 ∨ wrapper.argspec.varargs = Option.none
      ∨ wrapper.argspec.keywords = Option.none then
    Except.error (PyErr.typeError "Wrapper signature mismatch")
  else
    Except.ok { w with dispatchWrapper := some wrapper }

/-- `host.deregister_dispatch_wrapper`: `_state.pop("dispatchWrapper")`,
raising `KeyError` when the key is absent. -/
def deregister_dispatch_wrapper (w : World) : Except PyErr World :=
  match w.dispatchWrapper with
  | Option.none => Except.error (PyErr.keyError "dispatchWrapper")
  | some _ => Except.ok { w with dispatchWrapper := Option.none }

/-- `host.dispatch_wrapper`: `_state.get("dispatchWrapper")`. -/
def dispatch_wrapper (w : World) : Option Wrapper :=
  w.dispatchWrapper

/-- `host.current_server`: `_state.get("currentServer")`. -/
def current_server (w : World) : Option Server :=
  w.currentServer

/-- `host.register_python_executable`: assert the path is a file, then
store it under the `pythonExecutable` key. -/
def register_python_executable (env : Env) (path : String) (w : World) : Except PyErr World :=
  if env.isFile path then
    Except.ok { w with pythonExecutable := some path }
  else
    Except.error (PyErr.assertionError "Must be a file, such as python.exe")

/-- `host.registered_python_executable`: `_state.get("pythonExecutable")`. -/
def registered_python_executable (w : World) : Option String :=
  w.pythonExecutable

/-- `host.register_pyqt5`: store the path under the `pyqt5` key. -/
def register_pyqt5 (path : String) (w : World) : World :=
  { w with pyqt5 := some path }

/-- `pyblish.api.register_callback`: append the (signal, callback) pair to
the registry. -/
def pyblish_register_callback (signal : String) (cb : Cb) (w : World) : World :=
  { w with callbacks := w.callbacks ++ [(signal, cb)],
           events := w.events ++ [Event.registerCallback signal] }

/-- Remove the first matching (signal, callback) pair, as
`list.remove` does inside `pyblish.api.deregister_callback`. -/
def removeFirst (signal : String) (cb : Cb) : List (String × Cb) → List (String × Cb)
  | [] => []
  | (s, c) :: rest =>
      if s = signal ∧ c = cb then rest else (s, c) :: removeFirst signal cb rest

/-- `pyblish.api.deregister_callback`: drop the first matching pair. -/
def pyblish_deregister_callback (signal : String) (cb : Cb) (w : World) : World :=
  { w with callbacks := removeFirst signal cb w.callbacks,
           events := w.events ++ [Event.deregisterCallback signal] }

/-- `host.install_callbacks`: register the two toggle callbacks. -/
def install_callbacks (w : World) : World :=
  pyblish_register_callback "pluginToggled" Cb.togglePlugin
    (pyblish_register_callback "instanceToggled" Cb.toggleInstance w)

/-- `host.uninstall_callbacks`: deregister the two toggle callbacks. -/
def uninstall_callbacks (w : World) : World :=
  pyblish_deregister_callback "pluginToggled" Cb.togglePlugin
    (pyblish_deregister_callback "instanceToggled" Cb.toggleInstance w)

/-- `host.uninstall`: deregister callbacks and report shutdown. -/
def uninstall (w : World) : World :=
  let w := uninstall_callbacks w
  { w with events := w.events ++ [Event.stdout "Pyblish QML shutdown successful.\n"] }

/-- `host._connect_application_quit`: when Qt imported, hook the quit
handler (via the QApplication signal or atexit). -/
def _connect_application_quit (env : Env) (w : World) : World :=
  if env.hasQtWidgets then
    { w with events := w.events ++ [Event.connectApplicationQuit] }
  else w

/-- `host._install_maya`: import `maya.utils` (or raise `ImportError`),
register the Maya threaded wrapper and configure the GUI. -/
def _install_maya (env : Env) (w : World) : Except PyErr World :=
  if env.hasMayaUtils then
    let w := { w with events := w.events ++ [Event.stdout "Setting up Pyblish QML in Maya\n"] }
    match register_dispatch_wrapper { tag := WrapperTag.mayaThreaded, argspec := thread_argspec } w with
    | Except.error e => Except.error e
    | Except.ok w =>
        let w := _connect_application_quit env w
        Except.ok { w with contextLabel := "Maya", windowTitle := "Pyblish (Maya)" }
  else Except.error PyErr.importError

/-- `host._install_houdini`: import `hdefereval` (or raise `ImportError`),
register the Houdini threaded wrapper and configure the GUI. -/
def _install_houdini (env : Env) (w : World) : Except PyErr World :=
  if env.hasHdefereval then
    let w := { w with events := w.events ++ [Event.stdout "Setting up Pyblish QML in Houdini\n"] }
    match register_dispatch_wrapper { tag := WrapperTag.houdiniThreaded, argspec := thread_argspec } w with
    | Except.error e => Except.error e
    | Except.ok w =>
        let w := _connect_application_quit env w
        Except.ok { w with contextLabel := "Houdini", windowTitle := "Pyblish (Houdini)" }
  else Except.error PyErr.importError

/-- `host._install_nuke`: import `nuke`, raise `ImportError` when running
as Hiero or Nuke Studio, otherwise register the Nuke threaded wrapper
(which packs args and kwargs) and configure the GUI. -/
def _install_nuke (env : Env) (w : World) : Except PyErr World :=
  if env.hasNuke then
    if env.nukeRawArgs.contains "--hiero" || env.nukeRawArgs.contains "--studio" then
      Except.error PyErr.importError
    else
      let w := { w with events := w.events ++ [Event.stdout "Setting up Pyblish QML in Nuke\n"] }
      match register_dispatch_wrapper { tag := WrapperTag.nukeThreaded, argspec := thread_argspec } w with
      | Except.error e => Except.error e
      | Except.ok w =>
          let w := _connect_application_quit env w
          Except.ok { w with contextLabel := "Nuke", windowTitle := "Pyblish (Nuke)" }
  else Except.error PyErr.importError

/-- `host._install_hiero`: import `hiero` and `nuke`, raise `ImportError`
unless running with `--hiero`, otherwise register the Hiero threaded
wrapper (which packs args and kwargs) and configure the GUI. -/
def _install_hiero (env : Env) (w : World) : Except PyErr World :=
  if env.hasHiero && env.hasNuke then
    if env.nukeRawArgs.contains "--hiero" then
      let w := { w with events := w.events ++ [Event.stdout "Setting up Pyblish QML in Hiero\n"] }
      match register_dispatch_wrapper { tag := WrapperTag.hieroThreaded, argspec := thread_argspec } w with
      | Except.error e => Except.error e
      | Except.ok w =>
          let w := _connect_application_quit env w
          Except.ok { w with contextLabel := "Hiero", windowTitle := "Pyblish (Hiero)" }
    else Except.error PyErr.importError
  else Except.error PyErr.importError

/-- `host._install_blender`: import `bpy` (or raise `ImportError`) and
configure the GUI; registers no dispatch wrapper. -/
def _install_blender (env : Env) (w : World) : Except PyErr World :=
  if env.hasBpy then
    let w := { w with events := w.events ++ [Event.stdout "Setting up Pyblish QML in Blender\n"] }
    let w := _connect_application_quit env w
    Except.ok { w with contextLabel := "Blender", windowTitle := "Pyblish (Blender)" }
  else Except.error PyErr.importError

/-- The loop body of `host.install_host`: try each installer, skip on
`ImportError`, stop after the first that does not raise it. -/
def installLoop (env : Env) (w : World) :
    List (Env → World → Except PyErr World) → Except PyErr World
  | [] => Except.ok w
  | f :: rest =>
      match f env w with
      | Except.error PyErr.importError => installLoop env w rest
      | Except.error e => Except.error e
      | Except.ok w' => Except.ok w'

/-- `host.install_host`: try the five host installers in order. -/
def install_host (env : Env) (w : World) : Except PyErr World :=
  installLoop env w
    [_install_maya, _install_houdini, _install_nuke, _install_hiero, _install_blender]

/-- `host.install`: uninstall first when already installed, then register
the callbacks, install host support, and set the `installed` flag. -/
def install (env : Env) (w : World) : Except PyErr World :=
  let w :=
    if w.installed then
      uninstall { w with events := w.events ++ [Event.stdout "Already installed, uninstalling..\n"] }
    else w
  let w := install_callbacks w
  match install_host env w with
  | Except.error e => Except.error e
  | Except.ok w => Except.ok { w with installed := true, events := w.events ++ [Event.setInstalled] }

/-- `host._show_splash`: when Qt is importable and a QApplication exists,
create and show the splash screen. -/
def _show_splash (env : Env) (w : World) : Option Unit × World :=
  if env.hasQtWidgets && env.hasQApplication then
    (some (), { w with events := w.events ++ [Event.splashShown] })
  else (Option.none, w)

/-- `splash.close()`: raise `RuntimeError` when the underlying Qt object
is already gone, otherwise close. -/
def splash_close (env : Env) (w : World) : Except PyErr World :=
  if env.splashCloseRuntimeError then Except.error PyErr.runtimeError
  else Except.ok { w with events := w.events ++ [Event.splashClosed] }

/-- The `on_shown` closure inside `host.show`: close the splash,
swallowing `RuntimeError`/`AttributeError` (absent splash), then
deregister the `pyblishQmlShown` callback.  Returns `None`. -/
def on_shown (env : Env) (splash : Option Unit) (w : World) : World :=
  let w :=
    match splash with
    | Option.none => w
    | some _ =>
        match splash_close env w with
        | Except.error _ => w
        | Except.ok w' => w'
  pyblish_deregister_callback "pyblishQmlShown" Cb.onShown w

/-- `ipc.server.Proxy(server).show(settings.to_dict())`: succeeds or
raises `IOError` when the server instance is gone. -/
def proxy_show (env : Env) (s : Server) (w : World) : Except PyErr World :=
  if env.proxyShowOk s.id then
    Except.ok { w with events := w.events ++ [Event.proxyShow s.id] }
  else Except.error PyErr.ioError

/-- `ipc.service.Service()` followed by `ipc.server.Server(service)`:
yields a fresh server handle, or raises. -/
def create_server (env : Env) (w : World) : Except PyErr (Server × World) :=
  match env.serverCreateErr with
  | some e => Except.error e
  | Option.none =>
      let s : Server := { id := env.newServerId }
      Except.ok (s, { w with events := w.events ++ [Event.serverCreated s.id] })

/-- The part of `host.show` after the reuse attempt: show the splash,
register `on_shown`, construct the service and server (any exception here
prints the traceback and returns `on_shown()`, which is `None`), show the
GUI through a proxy, and store the server. -/
def show_rest (env : Env) (w : World) : Except PyErr (Option Server × World) :=
  let sp := _show_splash env w
  let splash := sp.1
  let w := sp.2
  let w := pyblish_register_callback "pyblishQmlShown" Cb.onShown w
  match create_server env w with
  | Except.error _ =>
      Except.ok (Option.none,
        on_shown env splash { w with events := w.events ++ [Event.tracebackPrinted] })
  | Except.ok (server, w) =>
      match proxy_show env server w with
      | Except.error e => Except.error e
      | Except.ok w =>
          Except.ok (some server,
            { w with currentServer := some server,
                     events := w.events ++
                       [Event.stdout "Success. QML server available as pyblish_qml.api.current_server()\n"] })

/-- `host.show`: install when not installed; when a current server exists,
try to show it through a proxy and return it, popping the stale entry on
`IOError`; otherwise fall through to `show_rest`.  (`show` is a Lean
keyword, hence the trailing underscore in the Lean name.) -/
def show_ (env : Env) (w : World) : Except PyErr (Option Server × World) :=
  match (if w.installed then Except.ok w else install env w) with
  | Except.error e => Except.error e
  | Except.ok w =>
      match w.currentServer with
      | some server =>
          match proxy_show env server w with
          | Except.ok w' => Except.ok (some server, w')
          | Except.error PyErr.ioError => show_rest env { w with currentServer := Option.none }
          | Except.error e => Except.error e
      | Option.none => show_rest env w

/-- The body of `host._on_application_quit` before its `except` clauses:
`_state["currentServer"].popen.kill()`, raising `KeyError` when the key is
absent and `OSError` when the process is already dead. -/
def _on_application_quit_body (env : Env) (w : World) : Except PyErr World :=
  match w.currentServer with
  | Option.none => Except.error (PyErr.keyError "currentServer")
  | some s =>
      if env.processAlive s.id then Except.ok { w with events := w.events ++ [Event.kill s.id] }
      else Except.error PyErr.osError

/-- `host._on_application_quit`: the body with `KeyError` and `OSError`
swallowed. -/
def _on_application_quit (env : Env) (w : World) : Except PyErr World :=
  match _on_application_quit_body env w with
  | Except.error (PyErr.keyError _) => Except.ok w
  | Except.error PyErr.osError => Except.ok w
  | r => r

/-- A world in which nothing has been registered, installed or run. -/
def emptyWorld : World :=
  { dispatchWrapper := Option.none, currentServer := Option.none, installed := false,
    pythonExecutable := Option.none, pyqt5 := Option.none, contextLabel := "",
    windowTitle := "", callbacks := [], events := [] }

/-- A user-supplied wrapper with the documented signature shape. -/
def userWrapper : Wrapper :=
  { tag := WrapperTag.user 0, argspec := thread_argspec }

/-- A concrete sample environment used by witnesses. -/
def sampleEnv : Env :=
  { hasMayaUtils := true, hasHdefereval := false, hasNuke := false, hasHiero := false,
    hasBpy := false, nukeRawArgs := [], hasQtWidgets := true, hasQApplication := true,
    proxyShowOk := fun _ => true, serverCreateErr := Option.none,
    splashCloseRuntimeError := false, isFile := fun p => p == "python.exe",
    processAlive := fun _ => true, newServerId := 7 }

theorem dictGet_dictSet (d : Dict) (k key : String) (v : Val) :
    dictGet (dictSet d k v) key = if key = k then some v else dictGet d key := by
  induction d with
  | nil =>
      by_cases h : key = k
      · subst h
        simp [dictSet, dictGet]
      · have hk : ¬k = key := fun hh => h hh.symm
        simp [dictSet, dictGet, h, hk]
  | cons p rest ih =>
      obtain ⟨k', v'⟩ := p
      by_cases h1 : k' = k
      · subst h1
        by_cases h2 : k' = key
        · subst h2
          simp [dictSet, dictGet]
        · have hk : ¬key = k' := fun hh => h2 hh.symm
          simp [dictSet, dictGet, h2, hk]
      · by_cases h2 : k' = key
        · subst h2
          simp [dictSet, dictGet, h1, fun hh : k' = k => h1 hh]
        · simp [dictSet, dictGet, h1, h2, ih]

/-- C1: `register_dispatch_wrapper(wrapper)` raises `TypeError` exactly
when the wrapper's argspec is not one positional parameter plus `*varargs`
plus `**kwargs`; otherwise it stores the wrapper under `dispatchWrapper`,
and `dispatch_wrapper()` then returns that same wrapper. -/
theorem C1_register_dispatch_wrapper_contract (wrapper : Wrapper) (w : World) :
    register_dispatch_wrapper wrapper w =
      (if wrapper.argspec.args.length = 1 ∧ wrapper.argspec.varargs ≠ Option.none
          ∧ wrapper.argspec.keywords ≠ Option.none
       then Except.ok { w with dispatchWrapper := some wrapper }
       else Except.error (PyErr.typeError "Wrapper signature mismatch"))
    ∧ dispatch_wrapper { w with dispatchWrapper := some wrapper } = some wrapper := by
  constructor
  · unfold register_dispatch_wrapper
    by_cases h1 : wrapper.argspec.args.length = 1 <;>
      by_cases h2 : wrapper.argspec.varargs = Option.none <;>
        by_cases h3 : wrapper.argspec.keywords = Option.none <;>
          simp [h1, h2, h3]
  · rfl

/-- C6: the toggling bridge performs pure field updates: `_toggle_instance`
sets `instance.data["publish"]` to the new value and changes nothing else,
`_toggle_plugin` sets `plugin.active` and changes nothing else, and both
ignore the old value. -/
theorem C6_toggle_pure_field_updates (inst : Instance) (plugin : Plugin)
    (new_value old_value old_value' : Val) :
    (∀ k, dictGet (_toggle_instance inst new_value old_value).data k =
       if k = "publish" then some new_value else dictGet inst.data k)
    ∧ (_toggle_instance inst new_value old_value).name = inst.name
    ∧ _toggle_instance inst new_value old_value = _toggle_instance inst new_value old_value'
    ∧ (_toggle_plugin plugin new_value old_value).active = new_value
    ∧ (_toggle_plugin plugin new_value old_value).name = plugin.name
    ∧ (_toggle_plugin plugin new_value old_value).order = plugin.order
    ∧ _toggle_plugin plugin new_value old_value = _toggle_plugin plugin new_value old_value' := by
  refine ⟨fun k => ?_, rfl, rfl, rfl, rfl, rfl, rfl⟩
  simp [_toggle_instance, dictGet_dictSet]

/-- C9: with no wrapper registered, `dispatch_wrapper()` returns `None`
while `deregister_dispatch_wrapper()` raises `KeyError`; after a
successful `register_dispatch_wrapper`, `deregister_dispatch_wrapper`
removes exactly that entry. -/
theorem C9_deregister_asymmetry (w : World) (wr : Wrapper) :
    (w.dispatchWrapper = Option.none →
       dispatch_wrapper w = Option.none
       ∧ deregister_dispatch_wrapper w = Except.error (PyErr.keyError "dispatchWrapper"))
    ∧ (∀ w', register_dispatch_wrapper wr w = Except.ok w' →
         deregister_dispatch_wrapper w' = Except.ok { w with dispatchWrapper := Option.none }) := by
  constructor
  · intro h
    exact ⟨h, by simp [deregister_dispatch_wrapper, h]⟩
  · intro w' h
    unfold register_dispatch_wrapper at h
    split at h
    · exact absurd h (by simp)
    · simp only [Except.ok.injEq] at h
      subst h
      rfl

/-- Witness for C9 at a concrete world and wrapper. -/
theorem C9_deregister_asymmetry_witness :
    (dispatch_wrapper emptyWorld = Option.none
     ∧ deregister_dispatch_wrapper emptyWorld = Except.error (PyErr.keyError "dispatchWrapper"))
    ∧ deregister_dispatch_wrapper { emptyWorld with dispatchWrapper := some userWrapper } =
        Except.ok { emptyWorld with dispatchWrapper := Option.none } :=
  ⟨(C9_deregister_asymmetry emptyWorld userWrapper).1 rfl,
   (C9_deregister_asymmetry emptyWorld userWrapper).2
     { emptyWorld with dispatchWrapper := some userWrapper } rfl⟩

/-- C10: `register_python_executable(path)` raises `AssertionError` on a
non-file path and leaves the state unchanged; on a file path it stores the
path, and `registered_python_executable()` returns exactly it, or `None`
when nothing was ever registered. -/
theorem C10_python_executable_roundtrip (env : Env) (path : String) (w : World) :
    (env.isFile path = false →
       register_python_executable env path w =
         Except.error (PyErr.assertionError "Must be a file, such as python.exe"))
    ∧ (env.isFile path = true →
       register_python_executable env path w = Except.ok { w with pythonExecutable := some path }
       ∧ registered_python_executable { w with pythonExecutable := some path } = some path)
    ∧ (w.pythonExecutable = Option.none → registered_python_executable w = Option.none) := by
  refine ⟨fun h => ?_, fun h => ⟨?_, rfl⟩, fun h => h⟩
  · simp [register_python_executable, h]
  · simp [register_python_executable, h]

/-- Witness for C10 at a concrete environment, paths and world. -/
theorem C10_python_executable_roundtrip_witness :
    register_python_executable sampleEnv "not-a-file" emptyWorld =
        Except.error (PyErr.assertionError "Must be a file, such as python.exe")
    ∧ (register_python_executable sampleEnv "python.exe" emptyWorld =
         Except.ok { emptyWorld with pythonExecutable := some "python.exe" }
       ∧ registered_python_executable
           { emptyWorld with pythonExecutable := some "python.exe" } = some "python.exe")
    ∧ registered_python_executable emptyWorld = Option.none :=
  ⟨(C10_python_executable_roundtrip sampleEnv "not-a-file" emptyWorld).1 (by decide),
   (C10_python_executable_roundtrip sampleEnv "python.exe" emptyWorld).2.1 (by decide),
   (C10_python_executable_roundtrip sampleEnv "python.exe" emptyWorld).2.2 rfl⟩

/-- Events emitted by `_connect_application_quit`. -/
def connectTrace (env : Env) : List Event :=
  if env.hasQtWidgets then [Event.connectApplicationQuit] else []

theorem connect_eq (env : Env) (w : World) :
    _connect_application_quit env w = { w with events := w.events ++ connectTrace env } := by
  unfold _connect_application_quit connectTrace
  cases env.hasQtWidgets <;> simp

theorem register_thread_ok (t : WrapperTag) (w : World) :
    register_dispatch_wrapper { tag := t, argspec := thread_argspec } w =
      Except.ok { w with dispatchWrapper := some { tag := t, argspec := thread_argspec } } := by
  simp [register_dispatch_wrapper, thread_argspec]

theorem install_maya_ok (env : Env) (w : World) (h : env.hasMayaUtils = true) :
    _install_maya env w = Except.ok
      { w with dispatchWrapper := some { tag := WrapperTag.mayaThreaded, argspec := thread_argspec },
               contextLabel := "Maya", windowTitle := "Pyblish (Maya)",
               events := w.events ++ ([Event.stdout "Setting up Pyblish QML in Maya\n"]
                 ++ connectTrace env) } := by
  simp [_install_maya, h, register_thread_ok, connect_eq]

theorem install_maya_err (env : Env) (w : World) (h : env.hasMayaUtils = false) :
    _install_maya env w = Except.error PyErr.importError := by
  simp [_install_maya, h]

theorem install_houdini_ok (env : Env) (w : World) (h : env.hasHdefereval = true) :
    _install_houdini env w = Except.ok
      { w with dispatchWrapper := some { tag := WrapperTag.houdiniThreaded, argspec := thread_argspec },
               contextLabel := "Houdini", windowTitle := "Pyblish (Houdini)",
               events := w.events ++ ([Event.stdout "Setting up Pyblish QML in Houdini\n"]
                 ++ connectTrace env) } := by
  simp [_install_houdini, h, register_thread_ok, connect_eq]

theorem install_houdini_err (env : Env) (w : World) (h : env.hasHdefereval = false) :
    _install_houdini env w = Except.error PyErr.importError := by
  simp [_install_houdini, h]

theorem install_nuke_ok (env : Env) (w : World) (h : env.hasNuke = true)
    (hf : (env.nukeRawArgs.contains "--hiero" || env.nukeRawArgs.contains "--studio") = false) :
    _install_nuke env w = Except.ok
      { w with dispatchWrapper := some { tag := WrapperTag.nukeThreaded, argspec := thread_argspec },
               contextLabel := "Nuke", windowTitle := "Pyblish (Nuke)",
               events := w.events ++ ([Event.stdout "Setting up Pyblish QML in Nuke\n"]
                 ++ connectTrace env) } := by
  have hf' : "--hiero" ∉ env.nukeRawArgs ∧ "--studio" ∉ env.nukeRawArgs := by simpa using hf
  simp [_install_nuke, h, hf'.1, hf'.2, register_thread_ok, connect_eq]

theorem install_nuke_err_absent (env : Env) (w : World) (h : env.hasNuke = false) :
    _install_nuke env w = Except.error PyErr.importError := by
  simp [_install_nuke, h]

theorem install_nuke_err_studio (env : Env) (w : World)
    (hf : (env.nukeRawArgs.contains "--hiero" || env.nukeRawArgs.contains "--studio") = true) :
    _install_nuke env w = Except.error PyErr.importError := by
  have hf' : "--hiero" ∈ env.nukeRawArgs ∨ "--studio" ∈ env.nukeRawArgs := by simpa using hf
  unfold _install_nuke
  cases h : env.hasNuke
  · simp
  · rcases hf' with hm | hm <;> simp [hm]

theorem install_hiero_ok (env : Env) (w : World) (h : (env.hasHiero && env.hasNuke) = true)
    (hf : env.nukeRawArgs.contains "--hiero" = true) :
    _install_hiero env w = Except.ok
      { w with dispatchWrapper := some { tag := WrapperTag.hieroThreaded, argspec := thread_argspec },
               contextLabel := "Hiero", windowTitle := "Pyblish (Hiero)",
               events := w.events ++ ([Event.stdout "Setting up Pyblish QML in Hiero\n"]
                 ++ connectTrace env) } := by
  have hf' : "--hiero" ∈ env.nukeRawArgs := by simpa using hf
  simp [_install_hiero, h, hf', register_thread_ok, connect_eq]

theorem install_hiero_err_absent (env : Env) (w : World)
    (h : (env.hasHiero && env.hasNuke) = false) :
    _install_hiero env w = Except.error PyErr.importError := by
  simp [_install_hiero, h]

theorem install_hiero_err_flag (env : Env) (w : World)
    (hf : env.nukeRawArgs.contains "--hiero" = false) :
    _install_hiero env w = Except.error PyErr.importError := by
  have hf' : "--hiero" ∉ env.nukeRawArgs := by simpa using hf
  unfold _install_hiero
  cases h : (env.hasHiero && env.hasNuke) <;> simp [hf']

theorem install_blender_ok (env : Env) (w : World) (h : env.hasBpy = true) :
    _install_blender env w = Except.ok
      { w with contextLabel := "Blender", windowTitle := "Pyblish (Blender)",
               events := w.events ++ ([Event.stdout "Setting up Pyblish QML in Blender\n"]
                 ++ connectTrace env) } := by
  simp [_install_blender, h, connect_eq]

theorem install_blender_err (env : Env) (w : World) (h : env.hasBpy = false) :
    _install_blender env w = Except.error PyErr.importError := by
  simp [_install_blender, h]

/-- The five "Setting up Pyblish QML in ..." stdout lines, one per host. -/
def isSetupLine : Event → Bool
  | Event.stdout s =>
      ["Setting up Pyblish QML in Maya\n", "Setting up Pyblish QML in Houdini\n",
       "Setting up Pyblish QML in Nuke\n", "Setting up Pyblish QML in Hiero\n",
       "Setting up Pyblish QML in Blender\n"].contains s
  | _ => false

/-- Number of host-setup announcements in an event log: how many times
host support was installed. -/
def setupCount (evs : List Event) : Nat :=
  (evs.filter isSetupLine).length

theorem setupCount_append (a b : List Event) :
    setupCount (a ++ b) = setupCount a + setupCount b := by
  simp [setupCount, List.filter_append]

theorem setupCount_connectTrace (env : Env) : setupCount (connectTrace env) = 0 := by
  unfold connectTrace
  cases h : env.hasQtWidgets <;> decide

theorem install_maya_err_only (env : Env) (w : World) :
    ∀ e, _install_maya env w = Except.error e → e = PyErr.importError := by
  intro e h
  cases hM : env.hasMayaUtils
  · rw [install_maya_err env w hM] at h
    simp only [Except.error.injEq] at h
    exact h.symm
  · rw [install_maya_ok env w hM] at h
    exact absurd h (by simp)

theorem install_houdini_err_only (env : Env) (w : World) :
    ∀ e, _install_houdini env w = Except.error e → e = PyErr.importError := by
  intro e h
  cases hH : env.hasHdefereval
  · rw [install_houdini_err env w hH] at h
    simp only [Except.error.injEq] at h
    exact h.symm
  · rw [install_houdini_ok env w hH] at h
    exact absurd h (by simp)

theorem install_nuke_err_only (env : Env) (w : World) :
    ∀ e, _install_nuke env w = Except.error e → e = PyErr.importError := by
  intro e h
  cases hN : env.hasNuke
  · rw [install_nuke_err_absent env w hN] at h
    simp only [Except.error.injEq] at h
    exact h.symm
  · cases hF : (env.nukeRawArgs.contains "--hiero" || env.nukeRawArgs.contains "--studio")
    · rw [install_nuke_ok env w hN hF] at h
      exact absurd h (by simp)
    · rw [install_nuke_err_studio env w hF] at h
      simp only [Except.error.injEq] at h
      exact h.symm

theorem install_hiero_err_only (env : Env) (w : World) :
    ∀ e, _install_hiero env w = Except.error e → e = PyErr.importError := by
  intro e h
  cases hH : (env.hasHiero && env.hasNuke)
  · rw [install_hiero_err_absent env w hH] at h
    simp only [Except.error.injEq] at h
    exact h.symm
  · cases hF : env.nukeRawArgs.contains "--hiero"
    · rw [install_hiero_err_flag env w hF] at h
      simp only [Except.error.injEq] at h
      exact h.symm
    · rw [install_hiero_ok env w hH hF] at h
      exact absurd h (by simp)

theorem install_blender_err_only (env : Env) (w : World) :
    ∀ e, _install_blender env w = Except.error e → e = PyErr.importError := by
  intro e h
  cases hB : env.hasBpy
  · rw [install_blender_err env w hB] at h
    simp only [Except.error.injEq] at h
    exact h.symm
  · rw [install_blender_ok env w hB] at h
    exact absurd h (by simp)

/-- Shared tail of the `install_host` analysis: once the first four
installers raise `ImportError`, the outcome is decided by Blender. -/
theorem install_host_shape_tail (env : Env) (w : World)
    (hM : _install_maya env w = Except.error PyErr.importError)
    (hH : _install_houdini env w = Except.error PyErr.importError)
    (hN : _install_nuke env w = Except.error PyErr.importError)
    (hHi : _install_hiero env w = Except.error PyErr.importError) :
    ∃ d c t evs, install_host env w = Except.ok
        { w with dispatchWrapper := d, contextLabel := c, windowTitle := t,
                 events := w.events ++ evs }
      ∧ setupCount evs ≤ 1
      ∧ (d = w.dispatchWrapper
         ∨ ∃ tag, (tag = WrapperTag.mayaThreaded ∨ tag = WrapperTag.houdiniThreaded
              ∨ tag = WrapperTag.nukeThreaded ∨ tag = WrapperTag.hieroThreaded)
            ∧ d = some { tag := tag, argspec := thread_argspec }) := by
  cases hB : env.hasBpy
  · refine ⟨w.dispatchWrapper, w.contextLabel, w.windowTitle, [], ?_, ?_, Or.inl rfl⟩
    · simp [install_host, installLoop, hM, hH, hN, hHi, install_blender_err env w hB]
    · decide
  · refine ⟨w.dispatchWrapper, "Blender", "Pyblish (Blender)",
      [Event.stdout "Setting up Pyblish QML in Blender\n"] ++ connectTrace env, ?_, ?_, Or.inl rfl⟩
    · simp [install_host, installLoop, hM, hH, hN, hHi, install_blender_ok env w hB]
    · rw [setupCount_append, setupCount_connectTrace]
      decide

/-- `install_host` always succeeds, changes only the dispatch wrapper and
the GUI settings, appends at most one host-setup announcement, and any
wrapper it stores is one of the four threaded wrappers. -/
theorem install_host_shape (env : Env) (w : World) :
    ∃ d c t evs, install_host env w = Except.ok
        { w with dispatchWrapper := d, contextLabel := c, windowTitle := t,
                 events := w.events ++ evs }
      ∧ setupCount evs ≤ 1
      ∧ (d = w.dispatchWrapper
         ∨ ∃ tag, (tag = WrapperTag.mayaThreaded ∨ tag = WrapperTag.houdiniThreaded
              ∨ tag = WrapperTag.nukeThreaded ∨ tag = WrapperTag.hieroThreaded)
            ∧ d = some { tag := tag, argspec := thread_argspec }) := by
  cases hM : env.hasMayaUtils
  case true =>
    refine ⟨some { tag := WrapperTag.mayaThreaded, argspec := thread_argspec }, "Maya",
      "Pyblish (Maya)", [Event.stdout "Setting up Pyblish QML in Maya\n"] ++ connectTrace env,
      ?_, ?_, Or.inr ⟨WrapperTag.mayaThreaded, Or.inl rfl, rfl⟩⟩
    · simp [install_host, installLoop, install_maya_ok env w hM]
    · rw [setupCount_append, setupCount_connectTrace]
      decide
  case false =>
  have hM' := install_maya_err env w hM
  cases hH : env.hasHdefereval
  case true =>
    refine ⟨some { tag := WrapperTag.houdiniThreaded, argspec := thread_argspec }, "Houdini",
      "Pyblish (Houdini)", [Event.stdout "Setting up Pyblish QML in Houdini\n"] ++ connectTrace env,
      ?_, ?_, Or.inr ⟨WrapperTag.houdiniThreaded, Or.inr (Or.inl rfl), rfl⟩⟩
    · simp [install_host, installLoop, hM', install_houdini_ok env w hH]
    · rw [setupCount_append, setupCount_connectTrace]
      decide
  case false =>
  have hH' := install_houdini_err env w hH
  cases hN : env.hasNuke
  case false =>
    have hN' := install_nuke_err_absent env w hN
    have hHi' := install_hiero_err_absent env w (by rw [hN, Bool.and_false])
    exact install_host_shape_tail env w hM' hH' hN' hHi'
  case true =>
  cases hF : (env.nukeRawArgs.contains "--hiero" || env.nukeRawArgs.contains "--studio")
  case false =>
    refine ⟨some { tag := WrapperTag.nukeThreaded, argspec := thread_argspec }, "Nuke",
      "Pyblish (Nuke)", [Event.stdout "Setting up Pyblish QML in Nuke\n"] ++ connectTrace env,
      ?_, ?_, Or.inr ⟨WrapperTag.nukeThreaded, Or.inr (Or.inr (Or.inl rfl)), rfl⟩⟩
    · simp [install_host, installLoop, hM', hH', install_nuke_ok env w hN hF]
    · rw [setupCount_append, setupCount_connectTrace]
      decide
  case true =>
  have hN' := install_nuke_err_studio env w hF
  cases hHi : env.hasHiero
  case false =>
    have hHi' := install_hiero_err_absent env w (by rw [hHi, Bool.false_and])
    exact install_host_shape_tail env w hM' hH' hN' hHi'
  case true =>
  cases hFl : env.nukeRawArgs.contains "--hiero"
  case false =>
    have hHi' := install_hiero_err_flag env w hFl
    exact install_host_shape_tail env w hM' hH' hN' hHi'
  case true =>
    refine ⟨some { tag := WrapperTag.hieroThreaded, argspec := thread_argspec }, "Hiero",
      "Pyblish (Hiero)", [Event.stdout "Setting up Pyblish QML in Hiero\n"] ++ connectTrace env,
      ?_, ?_, Or.inr ⟨WrapperTag.hieroThreaded, Or.inr (Or.inr (Or.inr rfl)), rfl⟩⟩
    · simp [install_host, installLoop, hM', hH', hN',
        install_hiero_ok env w (by simp [hHi, hN]) hFl]
    · rw [setupCount_append, setupCount_connectTrace]
      decide

/-- C2: `install_host()` tries the installers in the fixed order Maya,
Houdini, Nuke, Hiero, Blender; each can only raise `ImportError`, which is
silently skipped; iteration stops right after the first installer that
does not raise; at most one host-setup announcement is added and no
`ImportError` (indeed no exception) escapes. -/
theorem C2_install_host_first_success (env : Env) (w : World) :
    (∃ w', install_host env w = Except.ok w')
    ∧ (∀ w', install_host env w = Except.ok w' →
         setupCount w'.events ≤ setupCount w.events + 1)
    ∧ (∀ e, _install_maya env w = Except.error e → e = PyErr.importError)
    ∧ (∀ e, _install_houdini env w = Except.error e → e = PyErr.importError)
    ∧ (∀ e, _install_nuke env w = Except.error e → e = PyErr.importError)
    ∧ (∀ e, _install_hiero env w = Except.error e → e = PyErr.importError)
    ∧ (∀ e, _install_blender env w = Except.error e → e = PyErr.importError)
    ∧ (∀ w₁, _install_maya env w = Except.ok w₁ → install_host env w = Except.ok w₁)
    ∧ (_install_maya env w = Except.error PyErr.importError →
        ∀ w₁, _install_houdini env w = Except.ok w₁ → install_host env w = Except.ok w₁)
    ∧ (_install_maya env w = Except.error PyErr.importError →
       _install_houdini env w = Except.error PyErr.importError →
        ∀ w₁, _install_nuke env w = Except.ok w₁ → install_host env w = Except.ok w₁)
    ∧ (_install_maya env w = Except.error PyErr.importError →
       _install_houdini env w = Except.error PyErr.importError →
       _install_nuke env w = Except.error PyErr.importError →
        ∀ w₁, _install_hiero env w = Except.ok w₁ → install_host env w = Except.ok w₁)
    ∧ (_install_maya env w = Except.error PyErr.importError →
       _install_houdini env w = Except.error PyErr.importError →
       _install_nuke env w = Except.error PyErr.importError →
       _install_hiero env w = Except.error PyErr.importError →
        ∀ w₁, _install_blender env w = Except.ok w₁ → install_host env w = Except.ok w₁)
    ∧ (_install_maya env w = Except.error PyErr.importError →
       _install_houdini env w = Except.error PyErr.importError →
       _install_nuke env w = Except.error PyErr.importError →
       _install_hiero env w = Except.error PyErr.importError →
       _install_blender env w = Except.error PyErr.importError →
        install_host env w = Except.ok w) := by
  obtain ⟨d, c, t, evs, hs, hb, _⟩ := install_host_shape env w
  refine ⟨⟨_, hs⟩, ?_, install_maya_err_only env w, install_houdini_err_only env w,
    install_nuke_err_only env w, install_hiero_err_only env w, install_blender_err_only env w,
    ?_, ?_, ?_, ?_, ?_, ?_⟩
  · intro w' h
    rw [hs] at h
    injection h with h
    rw [← h]
    simp only [setupCount_append]
    omega
  · intro w₁ h1
    simp [install_host, installLoop, h1]
  · intro hm w₁ h1
    simp [install_host, installLoop, hm, h1]
  · intro hm hh w₁ h1
    simp [install_host, installLoop, hm, hh, h1]
  · intro hm hh hn w₁ h1
    simp [install_host, installLoop, hm, hh, hn, h1]
  · intro hm hh hn hhi w₁ h1
    simp [install_host, installLoop, hm, hh, hn, hhi, h1]
  · intro hm hh hn hhi hb'
    simp [install_host, installLoop, hm, hh, hn, hhi, hb']

/-- The world produced by a successful Maya install in `sampleEnv`. -/
def mayaWorld : World :=
  { emptyWorld with
      dispatchWrapper := some { tag := WrapperTag.mayaThreaded, argspec := thread_argspec },
      contextLabel := "Maya", windowTitle := "Pyblish (Maya)",
      events := [Event.stdout "Setting up Pyblish QML in Maya\n", Event.connectApplicationQuit] }

/-- Witness for C2: in an environment where Maya is present, the first
installer succeeds and decides the result of `install_host`. -/
theorem C2_install_host_first_success_witness :
    _install_maya sampleEnv emptyWorld = Except.ok mayaWorld
    ∧ install_host sampleEnv emptyWorld = Except.ok mayaWorld := by
  have h := C2_install_host_first_success sampleEnv emptyWorld
  have hm : _install_maya sampleEnv emptyWorld = Except.ok mayaWorld := by
    rw [install_maya_ok sampleEnv emptyWorld rfl]
    rfl
  exact ⟨hm, h.2.2.2.2.2.2.2.1 mayaWorld hm⟩

/-- C5: the Maya, Houdini, Nuke and Hiero installers each register a
dispatch wrapper that forwards its call to that host's
`executeInMainThreadWithResult`, the Blender installer registers none,
and `install_host` never stores any wrapper other than these four. -/
theorem C5_dispatch_wrappers (env : Env) (w : World) (f : Func)
    (args : List Val) (kwargs : Dict) :
    (∀ w₁, _install_maya env w = Except.ok w₁ →
       w₁.dispatchWrapper = some { tag := WrapperTag.mayaThreaded, argspec := thread_argspec })
    ∧ (∀ w₁, _install_houdini env w = Except.ok w₁ →
       w₁.dispatchWrapper = some { tag := WrapperTag.houdiniThreaded, argspec := thread_argspec })
    ∧ (∀ w₁, _install_nuke env w = Except.ok w₁ →
       w₁.dispatchWrapper = some { tag := WrapperTag.nukeThreaded, argspec := thread_argspec })
    ∧ (∀ w₁, _install_hiero env w = Except.ok w₁ →
       w₁.dispatchWrapper = some { tag := WrapperTag.hieroThreaded, argspec := thread_argspec })
    ∧ (∀ w₁, _install_blender env w = Except.ok w₁ → w₁.dispatchWrapper = w.dispatchWrapper)
    ∧ runWrapper WrapperTag.mayaThreaded f args kwargs =
        some { api := HostApi.mayaUtils, method := "executeInMainThreadWithResult",
               func := f, args := args, kwargs := kwargs, forwarding := Forwarding.unpacked }
    ∧ runWrapper WrapperTag.houdiniThreaded f args kwargs =
        some { api := HostApi.hdefereval, method := "executeInMainThreadWithResult",
               func := f, args := args, kwargs := kwargs, forwarding := Forwarding.unpacked }
    ∧ runWrapper WrapperTag.nukeThreaded f args kwargs =
        some { api := HostApi.nuke, method := "executeInMainThreadWithResult",
               func := f, args := args, kwargs := kwargs, forwarding := Forwarding.packed }
    ∧ runWrapper WrapperTag.hieroThreaded f args kwargs =
        some { api := HostApi.hieroCore, method := "executeInMainThreadWithResult",
               func := f, args := args, kwargs := kwargs, forwarding := Forwarding.packed }
    ∧ (∀ w', install_host env w = Except.ok w' →
         w'.dispatchWrapper = w.dispatchWrapper
         ∨ ∃ tag, (tag = WrapperTag.mayaThreaded ∨ tag = WrapperTag.houdiniThreaded
              ∨ tag = WrapperTag.nukeThreaded ∨ tag = WrapperTag.hieroThreaded)
            ∧ w'.dispatchWrapper = some { tag := tag, argspec := thread_argspec }) := by
  refine ⟨?_, ?_, ?_, ?_, ?_, rfl, rfl, rfl, rfl, ?_⟩
  · intro w₁ h
    cases hM : env.hasMayaUtils
    · rw [install_maya_err env w hM] at h
      exact absurd h (by simp)
    · rw [install_maya_ok env w hM] at h
      injection h with h
      rw [← h]
  · intro w₁ h
    cases hH : env.hasHdefereval
    · rw [install_houdini_err env w hH] at h
      exact absurd h (by simp)
    · rw [install_houdini_ok env w hH] at h
      injection h with h
      rw [← h]
  · intro w₁ h
    cases hN : env.hasNuke
    · rw [install_nuke_err_absent env w hN] at h
      exact absurd h (by simp)
    · cases hF : (env.nukeRawArgs.contains "--hiero" || env.nukeRawArgs.contains "--studio")
      · rw [install_nuke_ok env w hN hF] at h
        injection h with h
        rw [← h]
      · rw [install_nuke_err_studio env w hF] at h
        exact absurd h (by simp)
  · intro w₁ h
    cases hH : (env.hasHiero && env.hasNuke)
    · rw [install_hiero_err_absent env w hH] at h
      exact absurd h (by simp)
    · cases hF : env.nukeRawArgs.contains "--hiero"
      · rw [install_hiero_err_flag env w hF] at h
        exact absurd h (by simp)
      · rw [install_hiero_ok env w hH hF] at h
        injection h with h
        rw [← h]
  · intro w₁ h
    cases hB : env.hasBpy
    · rw [install_blender_err env w hB] at h
      exact absurd h (by simp)
    · rw [install_blender_ok env w hB] at h
      injection h with h
      rw [← h]
  · intro w' h
    obtain ⟨d, c, t, evs, hs, _, hprov⟩ := install_host_shape env w
    rw [hs] at h
    injection h with h
    rw [← h]
    exact hprov

/-- Witness for C5: the Maya installer's stored wrapper and its forwarding
behaviour at a concrete call. -/
theorem C5_dispatch_wrappers_witness :
    mayaWorld.dispatchWrapper = some { tag := WrapperTag.mayaThreaded, argspec := thread_argspec }
    ∧ runWrapper WrapperTag.mayaThreaded 0 [] [] =
        some { api := HostApi.mayaUtils, method := "executeInMainThreadWithResult",
               func := 0, args := [], kwargs := [], forwarding := Forwarding.unpacked } := by
  have h := C5_dispatch_wrappers sampleEnv emptyWorld 0 [] []
  exact ⟨h.1 mayaWorld (by rw [install_maya_ok sampleEnv emptyWorld rfl]; rfl),
         h.2.2.2.2.2.1⟩

/-- Events emitted by `_show_splash`. -/
def splashTrace (env : Env) : List Event :=
  if env.hasQtWidgets && env.hasQApplication then [Event.splashShown] else []

/-- The splash handle returned by `_show_splash`. -/
def splashVal (env : Env) : Option Unit :=
  if env.hasQtWidgets && env.hasQApplication then some () else Option.none

/-- Events emitted by `on_shown` while closing the splash. -/
def closeTrace (env : Env) : List Event :=
  if env.hasQtWidgets && env.hasQApplication then
    (if env.splashCloseRuntimeError then [] else [Event.splashClosed])
  else []

theorem _show_splash_eq (env : Env) (w : World) :
    _show_splash env w = (splashVal env, { w with events := w.events ++ splashTrace env }) := by
  unfold _show_splash splashVal splashTrace
  cases h : (env.hasQtWidgets && env.hasQApplication) <;> simp [h]

theorem on_shown_eq (env : Env) (w : World) :
    on_shown env (splashVal env) w =
      { w with callbacks := removeFirst "pyblishQmlShown" Cb.onShown w.callbacks,
               events := w.events ++ (closeTrace env
                 ++ [Event.deregisterCallback "pyblishQmlShown"]) } := by
  unfold on_shown splashVal closeTrace splash_close
  cases h1 : (env.hasQtWidgets && env.hasQApplication) <;>
    cases h2 : env.splashCloseRuntimeError <;>
      simp [h1, h2, pyblish_deregister_callback]

theorem show_rest_success (env : Env) (w : World)
    (hc : env.serverCreateErr = Option.none)
    (hp : env.proxyShowOk env.newServerId = true) :
    show_rest env w = Except.ok (some { id := env.newServerId },
      { w with currentServer := some { id := env.newServerId },
               callbacks := w.callbacks ++ [("pyblishQmlShown", Cb.onShown)],
               events := w.events ++ (splashTrace env ++
                 [Event.registerCallback "pyblishQmlShown",
                  Event.serverCreated env.newServerId, Event.proxyShow env.newServerId,
                  Event.stdout "Success. QML server available as pyblish_qml.api.current_server()\n"]) }) := by
  unfold show_rest
  rw [_show_splash_eq]
  simp [pyblish_register_callback, create_server, hc, proxy_show, hp]

theorem show_rest_failure (env : Env) (w : World) (e : PyErr)
    (hc : env.serverCreateErr = some e) :
    show_rest env w = Except.ok (Option.none,
      { w with callbacks := removeFirst "pyblishQmlShown" Cb.onShown
                 (w.callbacks ++ [("pyblishQmlShown", Cb.onShown)]),
               events := w.events ++ (splashTrace env ++
                 [Event.registerCallback "pyblishQmlShown", Event.tracebackPrinted]
                 ++ closeTrace env ++ [Event.deregisterCallback "pyblishQmlShown"]) }) := by
  unfold show_rest
  rw [_show_splash_eq]
  simp [pyblish_register_callback, create_server, hc, on_shown_eq]

theorem show_rest_proxy_fail (env : Env) (w : World)
    (hc : env.serverCreateErr = Option.none)
    (hp : env.proxyShowOk env.newServerId = false) :
    show_rest env w = Except.error PyErr.ioError := by
  unfold show_rest
  rw [_show_splash_eq]
  simp [pyblish_register_callback, create_server, hc, proxy_show, hp]

theorem show_rest_server (env : Env) (w : World) (r : Option Server) (w' : World)
    (h : show_rest env w = Except.ok (r, w')) :
    w'.currentServer = w.currentServer ∨ w'.currentServer = some { id := env.newServerId } := by
  cases hc : env.serverCreateErr with
  | some e =>
      rw [show_rest_failure env w e hc] at h
      simp only [Except.ok.injEq, Prod.mk.injEq] at h
      obtain ⟨h1, h2⟩ := h
      rw [← h2]
      exact Or.inl rfl
  | none =>
      cases hp : env.proxyShowOk env.newServerId with
      | false =>
          rw [show_rest_proxy_fail env w hc hp] at h
          exact absurd h (by simp)
      | true =>
          rw [show_rest_success env w hc hp] at h
          simp only [Except.ok.injEq, Prod.mk.injEq] at h
          obtain ⟨h1, h2⟩ := h
          rw [← h2]
          exact Or.inr rfl

theorem removeFirst_append_not_mem (signal : String) (cb : Cb) (l : List (String × Cb))
    (h : (signal, cb) ∉ l) :
    removeFirst signal cb (l ++ [(signal, cb)]) = l := by
  induction l with
  | nil => simp [removeFirst]
  | cons p rest ih =>
      obtain ⟨s, c⟩ := p
      have hne : ¬(s = signal ∧ c = cb) := by
        rintro ⟨rfl, rfl⟩
        exact h (by simp)
      simp only [List.cons_append, removeFirst, if_neg hne, List.append_eq]
      rw [ih fun hm => h (List.mem_cons_of_mem _ hm)]

theorem install_callbacks_eq (w : World) :
    install_callbacks w = { w with
      callbacks := w.callbacks ++ [("instanceToggled", Cb.toggleInstance),
                                   ("pluginToggled", Cb.togglePlugin)],
      events := w.events ++ [Event.registerCallback "instanceToggled",
                             Event.registerCallback "pluginToggled"] } := by
  simp [install_callbacks, pyblish_register_callback]

theorem uninstall_eq (w : World) :
    uninstall w = { w with
      callbacks := removeFirst "pluginToggled" Cb.togglePlugin
        (removeFirst "instanceToggled" Cb.toggleInstance w.callbacks),
      events := w.events ++ [Event.deregisterCallback "instanceToggled",
                             Event.deregisterCallback "pluginToggled",
                             Event.stdout "Pyblish QML shutdown successful.\n"] } := by
  simp [uninstall, uninstall_callbacks, pyblish_deregister_callback]

/-- A fresh `install()` (not yet installed): callbacks are registered,
then host support installed, then the `installed` flag set. -/
theorem install_shape (env : Env) (w : World) (hw : w.installed = false) :
    ∃ d c t evs, install env w = Except.ok
      { w with dispatchWrapper := d, contextLabel := c, windowTitle := t, installed := true,
               callbacks := w.callbacks ++ [("instanceToggled", Cb.toggleInstance),
                                            ("pluginToggled", Cb.togglePlugin)],
               events := w.events ++ ([Event.registerCallback "instanceToggled",
                 Event.registerCallback "pluginToggled"] ++ evs ++ [Event.setInstalled]) }
      ∧ setupCount evs ≤ 1 := by
  obtain ⟨d, c, t, evs, hs, hb, _⟩ := install_host_shape env (install_callbacks w)
  refine ⟨d, c, t, evs, ?_, hb⟩
  rw [install_callbacks_eq] at hs
  simp only [hw] at hs
  unfold install
  simp [hw, install_callbacks_eq, hs]

/-- A repeated `install()` (already installed): it first uninstalls
(deregistering the callbacks), then reinstalls. -/
theorem install_reinstall_shape (env : Env) (w : World) (hw : w.installed = true) :
    ∃ d c t evs, install env w = Except.ok
      { w with dispatchWrapper := d, contextLabel := c, windowTitle := t, installed := true,
               callbacks := (removeFirst "pluginToggled" Cb.togglePlugin
                   (removeFirst "instanceToggled" Cb.toggleInstance w.callbacks))
                 ++ [("instanceToggled", Cb.toggleInstance), ("pluginToggled", Cb.togglePlugin)],
               events := w.events ++ ([Event.stdout "Already installed, uninstalling..\n",
                 Event.deregisterCallback "instanceToggled",
                 Event.deregisterCallback "pluginToggled",
                 Event.stdout "Pyblish QML shutdown successful.\n",
                 Event.registerCallback "instanceToggled",
                 Event.registerCallback "pluginToggled"] ++ evs ++ [Event.setInstalled]) }
      ∧ setupCount evs ≤ 1 := by
  obtain ⟨d, c, t, evs, hs, hb, _⟩ := install_host_shape env
    (install_callbacks (uninstall
      { w with events := w.events ++ [Event.stdout "Already installed, uninstalling..\n"] }))
  refine ⟨d, c, t, evs, ?_, hb⟩
  rw [install_callbacks_eq, uninstall_eq] at hs
  simp only [hw] at hs
  simp at hs
  unfold install
  simp [hw, install_callbacks_eq, uninstall_eq, hs]

/-- C3: at most one server reference is held: with a current server whose
proxy show succeeds, `show()` returns that same server and only records the
proxy call; on `IOError` it removes the stale entry before the creation
path runs; and the final state holds no server, the reused one, or the
freshly created one. -/
theorem C3_at_most_one_server (env : Env) (w : World) (s : Server)
    (hs : w.currentServer = some s) (hi : w.installed = true) :
    (env.proxyShowOk s.id = true →
       show_ env w = Except.ok (some s, { w with events := w.events ++ [Event.proxyShow s.id] }))
    ∧ (env.proxyShowOk s.id = false →
       show_ env w = show_rest env { w with currentServer := Option.none })
    ∧ (∀ r w', show_ env w = Except.ok (r, w') →
         w'.currentServer = Option.none ∨ w'.currentServer = some s
         ∨ w'.currentServer = some { id := env.newServerId }) := by
  refine ⟨fun hp => ?_, fun hp => ?_, fun r w' h => ?_⟩
  · unfold show_
    simp [hi, hs, proxy_show, hp]
  · unfold show_
    simp [hi, hs, proxy_show, hp]
  · cases hp : env.proxyShowOk s.id
    · have heq : show_ env w = show_rest env { w with currentServer := Option.none } := by
        unfold show_
        simp [hi, hs, proxy_show, hp]
      rw [heq] at h
      rcases show_rest_server env { w with currentServer := Option.none } r w' h with h1 | h1
      · exact Or.inl h1
      · exact Or.inr (Or.inr h1)
    · have heq : show_ env w =
          Except.ok (some s, { w with events := w.events ++ [Event.proxyShow s.id] }) := by
        unfold show_
        simp [hi, hs, proxy_show, hp]
      rw [heq] at h
      simp only [Except.ok.injEq, Prod.mk.injEq] at h
      obtain ⟨h1, h2⟩ := h
      rw [← h2]
      exact Or.inr (Or.inl hs)

/-- A world holding a current server with id 3, already installed. -/
def serverWorld : World :=
  { emptyWorld with installed := true, currentServer := some { id := 3 } }

/-- Witness for C3: reusing the live server with id 3. -/
theorem C3_at_most_one_server_witness :
    show_ sampleEnv serverWorld = Except.ok (some { id := 3 },
      { serverWorld with events := serverWorld.events ++ [Event.proxyShow 3] }) :=
  (C3_at_most_one_server sampleEnv serverWorld { id := 3 } rfl rfl).1 rfl

/-- C4: when not installed, `show()` first runs the full install (callback
registration, then host install, then the `installed` flag), then spawns
the server, then shows the window; when already installed, `install()`
first uninstalls (deregistering the callbacks) before reinstalling. -/
theorem C4_install_before_spawn (env : Env) (w₁ w₂ : World)
    (h1 : w₁.installed = false) (h1s : w₁.currentServer = Option.none)
    (hc : env.serverCreateErr = Option.none)
    (hp : env.proxyShowOk env.newServerId = true)
    (h2 : w₂.installed = true) :
    (∃ tHost w', show_ env w₁ = Except.ok (some { id := env.newServerId }, w')
       ∧ w'.installed = true
       ∧ w'.events = w₁.events
           ++ ([Event.registerCallback "instanceToggled",
                Event.registerCallback "pluginToggled"]
               ++ tHost ++ [Event.setInstalled])
           ++ splashTrace env
           ++ [Event.registerCallback "pyblishQmlShown",
               Event.serverCreated env.newServerId, Event.proxyShow env.newServerId,
               Event.stdout "Success. QML server available as pyblish_qml.api.current_server()\n"])
    ∧ (∃ tHost w', install env w₂ = Except.ok w'
       ∧ w'.events = w₂.events
           ++ ([Event.stdout "Already installed, uninstalling..\n",
                Event.deregisterCallback "instanceToggled",
                Event.deregisterCallback "pluginToggled",
                Event.stdout "Pyblish QML shutdown successful.\n",
                Event.registerCallback "instanceToggled",
                Event.registerCallback "pluginToggled"]
               ++ tHost ++ [Event.setInstalled])) := by
  constructor
  · obtain ⟨d, c, t, evs, hsI, _⟩ := install_shape env w₁ h1
    have hflow : show_ env w₁ =
        show_rest env
          { w₁ with
            dispatchWrapper := d,
            contextLabel := c,
            windowTitle := t,
            installed := true,
            callbacks := w₁.callbacks ++ [("instanceToggled", Cb.toggleInstance),
                                          ("pluginToggled", Cb.togglePlugin)],
            events := w₁.events ++ ([Event.registerCallback "instanceToggled",
              Event.registerCallback "pluginToggled"] ++ evs ++ [Event.setInstalled]) } := by
      unfold show_
      simp [h1, hsI, h1s]
    rw [show_rest_success _ _ hc hp] at hflow
    exact ⟨evs, _, hflow, rfl, by simp⟩
  · obtain ⟨d, c, t, evs, hsI, _⟩ := install_reinstall_shape env w₂ h2
    exact ⟨evs, _, hsI, by simp⟩

/-- Witness for C4 in a Maya-like environment with Qt available. -/
theorem C4_install_before_spawn_witness :
    (∃ tHost w', show_ sampleEnv emptyWorld =
        Except.ok (some { id := sampleEnv.newServerId }, w')
       ∧ w'.installed = true
       ∧ w'.events = emptyWorld.events
           ++ ([Event.registerCallback "instanceToggled",
                Event.registerCallback "pluginToggled"]
               ++ tHost ++ [Event.setInstalled])
           ++ splashTrace sampleEnv
           ++ [Event.registerCallback "pyblishQmlShown",
               Event.serverCreated sampleEnv.newServerId, Event.proxyShow sampleEnv.newServerId,
               Event.stdout "Success. QML server available as pyblish_qml.api.current_server()\n"])
    ∧ (∃ tHost w', install sampleEnv serverWorld = Except.ok w'
       ∧ w'.events = serverWorld.events
           ++ ([Event.stdout "Already installed, uninstalling..\n",
                Event.deregisterCallback "instanceToggled",
                Event.deregisterCallback "pluginToggled",
                Event.stdout "Pyblish QML shutdown successful.\n",
                Event.registerCallback "instanceToggled",
                Event.registerCallback "pluginToggled"]
               ++ tHost ++ [Event.setInstalled])) :=
  C4_install_before_spawn sampleEnv emptyWorld serverWorld rfl rfl rfl rfl rfl

/-- C7: if constructing the IPC service or server raises, `show()` prints
the traceback, closes the splash (tolerating an absent or already-closed
splash), deregisters the `pyblishQmlShown` callback, leaves no
`currentServer` entry, and returns `None`. -/
theorem C7_construction_failure (env : Env) (w : World) (e : PyErr)
    (hi : w.installed = true) (hs : w.currentServer = Option.none)
    (hc : env.serverCreateErr = some e)
    (hcb : ("pyblishQmlShown", Cb.onShown) ∉ w.callbacks) :
    ∃ w', show_ env w = Except.ok (Option.none, w')
      ∧ w'.currentServer = Option.none
      ∧ w'.callbacks = w.callbacks
      ∧ w'.events = w.events ++ (splashTrace env
          ++ [Event.registerCallback "pyblishQmlShown", Event.tracebackPrinted]
          ++ closeTrace env ++ [Event.deregisterCallback "pyblishQmlShown"]) := by
  refine ⟨{ w with
      callbacks := removeFirst "pyblishQmlShown" Cb.onShown
        (w.callbacks ++ [("pyblishQmlShown", Cb.onShown)]),
      events := w.events ++ (splashTrace env
        ++ [Event.registerCallback "pyblishQmlShown", Event.tracebackPrinted]
        ++ closeTrace env ++ [Event.deregisterCallback "pyblishQmlShown"]) },
    ?_, hs, removeFirst_append_not_mem _ _ _ hcb, rfl⟩
  unfold show_
  simp only [hi, if_true, hs]
  rw [show_rest_failure env w e hc]
  rw [hs, hi]

/-- An environment in which constructing the server raises. -/
def failEnv : Env :=
  { sampleEnv with serverCreateErr := some (PyErr.typeError "boom") }

/-- Witness for C7 at a concrete failing environment. -/
theorem C7_construction_failure_witness :
    ∃ w', show_ failEnv { emptyWorld with installed := true } = Except.ok (Option.none, w')
      ∧ w'.currentServer = Option.none
      ∧ w'.callbacks = ({ emptyWorld with installed := true } : World).callbacks
      ∧ w'.events = ({ emptyWorld with installed := true } : World).events
          ++ (splashTrace failEnv
          ++ [Event.registerCallback "pyblishQmlShown", Event.tracebackPrinted]
          ++ closeTrace failEnv ++ [Event.deregisterCallback "pyblishQmlShown"]) :=
  C7_construction_failure failEnv { emptyWorld with installed := true }
    (PyErr.typeError "boom") rfl rfl rfl (by simp [emptyWorld])

/-- C8: `_on_application_quit` kills the current server's process handle
and never propagates an exception: it is a no-op when no server was ever
started (`KeyError`) or when the process is already dead (`OSError`). -/
theorem C8_application_quit_total (env : Env) (w : World) :
    ∃ w', _on_application_quit env w = Except.ok w'
      ∧ (w.currentServer = Option.none → w' = w)
      ∧ (∀ s, w.currentServer = some s → env.processAlive s.id = false → w' = w)
      ∧ (∀ s, w.currentServer = some s → env.processAlive s.id = true →
           w' = { w with events := w.events ++ [Event.kill s.id] }) := by
  cases hs : w.currentServer with
  | none =>
      refine ⟨w, ?_, fun _ => rfl, fun s h => absurd h (by simp),
        fun s h => absurd h (by simp)⟩
      simp [_on_application_quit, _on_application_quit_body, hs]
  | some s =>
      cases ha : env.processAlive s.id
      · refine ⟨w, ?_, fun h => absurd h (by simp), fun s' h hd => rfl, ?_⟩
        · simp [_on_application_quit, _on_application_quit_body, hs, ha]
        · intro s' h halive
          injection h with h
          rw [← h] at halive
          rw [halive] at ha
          exact absurd ha (by simp)
      · refine ⟨{ w with events := w.events ++ [Event.kill s.id] }, ?_,
          fun h => absurd h (by simp), ?_, ?_⟩
        · simp [_on_application_quit, _on_application_quit_body, hs, ha]
        · intro s' h hdead
          injection h with h
          rw [← h] at hdead
          rw [hdead] at ha
          exact absurd ha (by simp)
        · intro s' h hl
          injection h with h
          rw [h] at hs
          rw [h, hs]

/-- Witness for C8: killing the live server with id 3. -/
theorem C8_application_quit_total_witness :
    ∃ w', _on_application_quit sampleEnv serverWorld = Except.ok w'
      ∧ w' = { serverWorld with events := serverWorld.events ++ [Event.kill 3] } := by
  obtain ⟨w', hok, _, _, hkill⟩ := C8_application_quit_total sampleEnv serverWorld
  exact ⟨w', hok, hkill { id := 3 } rfl rfl⟩

end PyblishQml
